import Mathlib

/-!
Verification development for the LangGraph role-based management application.

The core under verification is the session workflow engine built in
`main.py` (graph wiring, routing functions, compilation without a
checkpointer) over the node functions of `langgraph_nodes.py` and the
entity operations of `models.py`.  The MongoDB collections that the code
reads and writes (`users`, `colleges`, `teachers`, `students`) are
modelled as in-memory lists with first-match query semantics, matching
`find_one` / `update_one` on insertion-ordered collections.  The LLM /
PDF services invoked by the teacher and student action handlers, and the
`assignments` / `submissions` collections that only those handlers touch,
are abstracted behind an oracle parameter: the node functions themselves
(payload extraction, message construction, routing) are modelled exactly.
Random `uuid4` generation is modelled with a counter threaded through the
database value, and the bcrypt hash is modelled as an injective encoding
whose `verify` compares the encodings.
-/

/-- Values that can appear in a client-supplied payload dictionary
(`user_data`), mirroring the JSON-ish values the Python code handles. -/
inductive Value where
  | str (s : String)
  | int (n : Int)
  | bool (b : Bool)
  | none
deriving DecidableEq, Repr

/-- Exception classes distinguished by the `except` clauses in the source
(`except KeyError`, `except (ValueError, KeyError)`, and the
`TypeError`s that no handler catches). -/
inductive PyError where
  | keyError
  | valueError
  | typeError
deriving DecidableEq, Repr

/-- Python `str()` applied to a payload value. -/
def pyStr (v : Value) : String :=
  match v with
  | .str s => s
  | .int n => toString n
  | .bool b => if b then "True" else "False"
  | .none => "None"

/-- Python truthiness of a payload value (used for `include_inactive`). -/
def pyTruthy (v : Value) : Bool :=
  match v with
  | .str s => decide (s ≠ "")
  | .int n => decide (n ≠ 0)
  | .bool b => b
  | .none => false

/-- Split a character list at every occurrence of the separator
(Python `str.split` / the regex alternation points); structural
recursion so that it evaluates inside the kernel. -/
def splitOnChar (c : Char) : List Char → List (List Char)
  | [] => [[]]
  | x :: xs =>
    if x = c then [] :: splitOnChar c xs
    else
      match splitOnChar c xs with
      | h :: t => (x :: h) :: t
      | [] => [[x]]

/-- Join character-list segments with a dot separator. -/
def joinDots : List (List Char) → List Char
  | [] => []
  | [x] => x
  | x :: xs => x ++ ('.' :: joinDots xs)

/-- Decimal value of a digit list. -/
def digitsToNat (l : List Char) : Nat :=
  l.foldl (fun acc c => acc * 10 + (c.toNat - 48)) 0

/-- Python `int(x)` on a string: optional sign, digits, surrounding
whitespace allowed; `Option.none` when the conversion raises. -/
def pyIntOfString (x : String) : Option Int :=
  match (x.data.dropWhile Char.isWhitespace).reverse.dropWhile Char.isWhitespace |>.reverse with
  | [] => Option.none
  | c :: rest =>
    if c = '-' then
      if !rest.isEmpty && rest.all Char.isDigit then
        some (-(digitsToNat rest : Int))
      else Option.none
    else if c = '+' then
      if !rest.isEmpty && rest.all Char.isDigit then
        some (digitsToNat rest : Int)
      else Option.none
    else
      if (c :: rest).all Char.isDigit then some (digitsToNat (c :: rest) : Int)
      else Option.none

/-- Python `int(x)` on a payload value, `Option.none` when it raises
(`ValueError` for a bad string, `TypeError` for `None`). -/
def pyToInt (v : Value) : Option Int :=
  match v with
  | .int n => some n
  | .bool b => some (if b then 1 else 0)
  | .str x => pyIntOfString x
  | .none => Option.none

/-- Phone validation from `models.User._is_valid_phone`:
`re.match(r'^\d\x7b10,15\x7d$', str(phone_no))`. -/
def isValidPhone (v : Value) : Bool :=
  let x := pyStr v
  decide (10 ≤ x.length) && decide (x.length ≤ 15) && x.data.all Char.isDigit

/-- Characters allowed in the local part of the email pattern in
`models.User._is_valid_email`. -/
def isLocalChar (c : Char) : Bool :=
  c.isAlphanum || decide (c = '.') || decide (c = '_') || decide (c = '%') ||
    decide (c = '+') || decide (c = '-')

/-- Characters allowed in the domain part of the email pattern. -/
def isDomainChar (c : Char) : Bool :=
  c.isAlphanum || decide (c = '.') || decide (c = '-')

/-- Email validation from `models.User._is_valid_email`: the anchored
pattern `[a-zA-Z0-9._%+-]+ @ [a-zA-Z0-9.-]+ . [a-zA-Z](2 or more)`; the
final dot of the domain must be followed by an alphabetic TLD of length
at least two reaching the end of the string. -/
def isValidEmailStr (e : String) : Bool :=
  match splitOnChar '@' e.data with
  | [localPart, domainPart] =>
    decide (0 < localPart.length) && localPart.all isLocalChar &&
      (match (splitOnChar '.' domainPart).reverse with
       | tld :: restRev =>
         decide (0 < restRev.length) &&
           (let host := joinDots restRev.reverse
            decide (0 < host.length) && host.all isDomainChar &&
              decide (2 ≤ tld.length) && tld.all Char.isAlpha)
       | [] => false)
  | _ => false

/-- Age validation from `models.User._is_valid_age`:
`0 < int(age) < 120`, with `ValueError` / `TypeError` from the
conversion caught and treated as invalid. -/
def isValidAge (v : Value) : Bool :=
  match pyToInt v with
  | some n => decide (0 < n) && decide (n < 120)
  | Option.none => false

/-- Bcrypt hashing modelled as an injective encoding of the plaintext;
adequate for the functional-correctness properties proved here. -/
def bcryptHash (p : String) : String :=
  "bcrypt$" ++ p

/-- Model of `passlib.hash.bcrypt.verify(plain, stored)`. -/
def bcryptVerify (plain stored : String) : Bool :=
  decide (stored = bcryptHash plain)

/-- A document in the `users` collection (shape produced by
`create_admin.py` and the `add_*` operations of `models.py`). -/
structure UserDoc where
  _id : String
  name : String
  email : String
  passwordHash : String
  role : String
deriving DecidableEq, Repr

/-- A document in the `colleges` collection (`Admin.add_college`). -/
structure CollegeDoc where
  _id : String
  name : String
  principal_name : String
  email : String
  principal_user_id : String
  active : Bool
deriving DecidableEq, Repr

/-- A document in the `teachers` collection (`College.add_teacher`). -/
structure TeacherDoc where
  _id : String
  name : String
  email : String
  assigned_class : String
  college_id : String
  teacher_user_id : String
  active : Bool
deriving DecidableEq, Repr

/-- A document in the `students` collection (`Teacher.add_student`). -/
structure StudentDoc where
  _id : String
  name : String
  email : String
  assigned_class : String
  college_id : String
  teacher_id : String
  student_user_id : String
  active : Bool
deriving DecidableEq, Repr

/-- The persistent collections the workflow core reads and writes,
plus a counter standing in for `uuid4` freshness. -/
structure DB where
  users : List UserDoc
  colleges : List CollegeDoc
  teachers : List TeacherDoc
  students : List StudentDoc
  gen : Nat
deriving DecidableEq, Repr

/-- A client payload dictionary (`user_data`). -/
def PyDict := List (String × Value)
deriving DecidableEq, Repr

/-- Dictionary lookup: `d[k]` returns `some` value or a `KeyError`
(`Option.none`); also models `d.get(k, default)` via `Option.getD`. -/
def dictGet (d : PyDict) (k : String) : Option Value :=
  (List.find? (fun p => decide (p.1 = k)) d).map Prod.snd

/-- Lookup in the role context dictionary (string-valued). -/
def contextGet (d : List (String × String)) (k : String) : Option String :=
  (List.find? (fun p => decide (p.1 = k)) d).map Prod.snd

/-- Fresh identifier from the uuid counter. -/
def genId (n : Nat) : String :=
  "uuid-" ++ toString n

/-- Fresh temporary password (`str(uuid.uuid4())[:8]`). -/
def genPwd (n : Nat) : String :=
  "pw-" ++ toString n

/-- Model of `Admin.add_college(college_data)` from `models.py`.
Evaluation order follows the source: the `uuid` password, then the
`User(...)` argument lookups (`principal_name`, `.get('principal_age')`,
`.get('principal_address')`, `phone_no`, `email`), then the `User`
validations (phone, email, age), then the user insert, then the
`college_data['name']` lookup for the college document, then the
college insert.  `ValueError` / `KeyError` are caught and yield
`(db-so-far, none)`; the `TypeError` that `re.match` raises on a
non-string email is not caught. -/
def adminAddCollege (db : DB) (data : PyDict) : Except PyError (DB × Option (CollegeDoc × String)) :=
  match dictGet data "principal_name" with
  | Option.none => .ok (db, Option.none)
  | some pname =>
    match dictGet data "phone_no" with
    | Option.none => .ok (db, Option.none)
    | some phone =>
      match dictGet data "email" with
      | Option.none => .ok (db, Option.none)
      | some emailV =>
        let ageV := (dictGet data "principal_age").getD Value.none
        if isValidPhone phone then
          match emailV with
          | .str emailS =>
            if isValidEmailStr emailS then
              if isValidAge ageV then
                let pwd := genPwd db.gen
                let uid := genId (db.gen + 1)
                let udoc : UserDoc :=
                  { _id := uid, name := pyStr pname, email := emailS,
                    passwordHash := bcryptHash pwd, role := "college" }
                let db1 : DB := { db with users := db.users ++ [udoc], gen := db.gen + 3 }
                match dictGet data "name" with
                | Option.none => .ok (db1, Option.none)
                | some cname =>
                  let cdoc : CollegeDoc :=
                    { _id := genId (db.gen + 2), name := pyStr cname,
                      principal_name := pyStr pname, email := emailS,
                      principal_user_id := uid, active := true }
                  .ok ({ db1 with colleges := db1.colleges ++ [cdoc] }, some (cdoc, pwd))
              else .ok (db, Option.none)
            else .ok (db, Option.none)
          | _ => .error .typeError
        else .ok (db, Option.none)

/-- Deactivate the first college whose `_id` equals the given payload
value; the boolean is Mongo's `modified_count > 0` (a match whose
`active` flag was already `false` counts as not modified). -/
def setCollegeInactive : List CollegeDoc → Value → List CollegeDoc × Bool
  | [], _ => ([], false)
  | c :: rest, cid =>
    if (match cid with | .str x => decide (x = c._id) | _ => false) then
      (({ c with active := false }) :: rest, c.active)
    else
      let r := setCollegeInactive rest cid
      (c :: r.1, r.2)

/-- Model of `Admin.remove_college(college_id)`: soft delete via
`update_one(set active = False)`. -/
def adminRemoveCollege (db : DB) (cid : Value) : DB × Bool :=
  let r := setCollegeInactive db.colleges cid
  ({ db with colleges := r.1 }, r.2)

/-- Model of `Admin.list_colleges(include_inactive)`. -/
def adminListColleges (db : DB) (includeInactive : Bool) : List CollegeDoc :=
  if includeInactive then db.colleges else db.colleges.filter (fun c => c.active)

/-- Model of `College.add_teacher(teacher_data, college_id)`; same
structure as `adminAddCollege`, with required keys `name`, `age`,
`address`, `phone_no`, `email` and, after the user insert,
`assigned_class`. -/
def collegeAddTeacher (db : DB) (data : PyDict) (collegeId : String) :
    Except PyError (DB × Option (TeacherDoc × String)) :=
  match dictGet data "name" with
  | Option.none => .ok (db, Option.none)
  | some nameV =>
    match dictGet data "age" with
    | Option.none => .ok (db, Option.none)
    | some ageV =>
      match dictGet data "address" with
      | Option.none => .ok (db, Option.none)
      | some _ =>
        match dictGet data "phone_no" with
        | Option.none => .ok (db, Option.none)
        | some phone =>
          match dictGet data "email" with
          | Option.none => .ok (db, Option.none)
          | some emailV =>
            if isValidPhone phone then
              match emailV with
              | .str emailS =>
                if isValidEmailStr emailS then
                  if isValidAge ageV then
                    let pwd := genPwd db.gen
                    let uid := genId (db.gen + 1)
                    let udoc : UserDoc :=
                      { _id := uid, name := pyStr nameV, email := emailS,
                        passwordHash := bcryptHash pwd, role := "teacher" }
                    let db1 : DB := { db with users := db.users ++ [udoc], gen := db.gen + 3 }
                    match dictGet data "assigned_class" with
                    | Option.none => .ok (db1, Option.none)
                    | some aclsV =>
                      let tdoc : TeacherDoc :=
                        { _id := genId (db.gen + 2), name := pyStr nameV, email := emailS,
                          assigned_class := pyStr aclsV, college_id := collegeId,
                          teacher_user_id := uid, active := true }
                      .ok ({ db1 with teachers := db1.teachers ++ [tdoc] }, some (tdoc, pwd))
                  else .ok (db, Option.none)
                else .ok (db, Option.none)
              | _ => .error .typeError
            else .ok (db, Option.none)

/-- Deactivate the first teacher with the given `_id`
(`College.remove_teacher`). -/
def setTeacherInactive : List TeacherDoc → Value → List TeacherDoc × Bool
  | [], _ => ([], false)
  | t :: rest, tid =>
    if (match tid with | .str x => decide (x = t._id) | _ => false) then
      (({ t with active := false }) :: rest, t.active)
    else
      let r := setTeacherInactive rest tid
      (t :: r.1, r.2)

/-- Model of `College.remove_teacher(teacher_id)`. -/
def collegeRemoveTeacher (db : DB) (tid : Value) : DB × Bool :=
  let r := setTeacherInactive db.teachers tid
  ({ db with teachers := r.1 }, r.2)

/-- Model of `College.list_teachers(college_id, include_inactive)`. -/
def collegeListTeachers (db : DB) (collegeId : String) (includeInactive : Bool) :
    List TeacherDoc :=
  let base := db.teachers.filter (fun t => decide (t.college_id = collegeId))
  if includeInactive then base else base.filter (fun t => t.active)

/-- Model of `Teacher.add_student(student_data, teacher_id, college_id,
assigned_class)`; required keys `name`, `age`, `address`, `phone_no`,
`email`, then the user insert followed by the student insert. -/
def teacherAddStudent (db : DB) (data : PyDict) (teacherId collegeId assignedClass : String) :
    Except PyError (DB × Option (StudentDoc × String)) :=
  match dictGet data "name" with
  | Option.none => .ok (db, Option.none)
  | some nameV =>
    match dictGet data "age" with
    | Option.none => .ok (db, Option.none)
    | some ageV =>
      match dictGet data "address" with
      | Option.none => .ok (db, Option.none)
      | some _ =>
        match dictGet data "phone_no" with
        | Option.none => .ok (db, Option.none)
        | some phone =>
          match dictGet data "email" with
          | Option.none => .ok (db, Option.none)
          | some emailV =>
            if isValidPhone phone then
              match emailV with
              | .str emailS =>
                if isValidEmailStr emailS then
                  if isValidAge ageV then
                    let pwd := genPwd db.gen
                    let uid := genId (db.gen + 1)
                    let udoc : UserDoc :=
                      { _id := uid, name := pyStr nameV, email := emailS,
                        passwordHash := bcryptHash pwd, role := "student" }
                    let db1 : DB := { db with users := db.users ++ [udoc], gen := db.gen + 3 }
                    let sdoc : StudentDoc :=
                      { _id := genId (db.gen + 2), name := pyStr nameV, email := emailS,
                        assigned_class := assignedClass, college_id := collegeId,
                        teacher_id := teacherId, student_user_id := uid, active := true }
                    .ok ({ db1 with students := db1.students ++ [sdoc] }, some (sdoc, pwd))
                  else .ok (db, Option.none)
                else .ok (db, Option.none)
              | _ => .error .typeError
            else .ok (db, Option.none)

/-- The LangGraph state schema from `langgraph_nodes.AppState`. -/
structure AppState where
  current_role : String
  current_user_id : Option String
  user_context : List (String × String)
  message : String
  user_data : PyDict
  action : String
deriving DecidableEq, Repr

/-- One external invocation's input: the partial state dictionary passed
to `app.stream(inputs, config)`; absent keys are left at the fresh
state's defaults (the graph is compiled without a checkpointer, so each
invocation starts from a fresh state populated only by its input). -/
structure Input where
  current_role : Option String := Option.none
  current_user_id : Option (Option String) := Option.none
  user_context : Option (List (String × String)) := Option.none
  message : Option String := Option.none
  user_data : Option PyDict := Option.none
  action : Option String := Option.none
deriving Repr

/-- The state at the start of a traversal, given the invocation input. -/
def initState (inp : Input) : AppState :=
  { current_role := inp.current_role.getD "unauthenticated",
    current_user_id := inp.current_user_id.getD Option.none,
    user_context := inp.user_context.getD [],
    message := inp.message.getD "",
    user_data := inp.user_data.getD [],
    action := inp.action.getD "" }

/-- Role-scoped context resolution performed inside `login_node`
(`langgraph_nodes.py` lines 27-40): college principals get their
college id, teachers their college / teacher-document / class, students
their student-document / class; admins get an empty context. -/
def resolveContext (db : DB) (u : UserDoc) : List (String × String) :=
  if u.role = "college" then
    match db.colleges.find? (fun c => decide (c.principal_user_id = u._id)) with
    | some c => [("college_id", c._id)]
    | Option.none => []
  else if u.role = "teacher" then
    match db.teachers.find? (fun t => decide (t.teacher_user_id = u._id)) with
    | some t => [("college_id", t.college_id), ("teacher_db_id", t._id),
                 ("assigned_class", t.assigned_class)]
    | Option.none => []
  else if u.role = "student" then
    match db.students.find? (fun d => decide (d.student_user_id = u._id)) with
    | some d => [("student_db_id", d._id), ("assigned_class", d.assigned_class)]
    | Option.none => []
  else []

/-- Outcome of the credential check inside `login_node`: missing
`email` / `password` keys (`KeyError`), no user document with that
email, wrong secret, a `TypeError` from `bcrypt.verify` on a non-string
secret, or success with the found user document. -/
inductive LoginResult where
  | badRequest
  | noMatch
  | wrongSecret
  | typeErr
  | success (u : UserDoc)
deriving DecidableEq, Repr

/-- The credential check of `login_node`:
`users_collection.find_one(email)` then `bcrypt.verify`. -/
def loginAttempt (db : DB) (ud : PyDict) : LoginResult :=
  match dictGet ud "email" with
  | Option.none => .badRequest
  | some ev =>
    match dictGet ud "password" with
    | Option.none => .badRequest
    | some pv =>
      match db.users.find? (fun u => decide (ev = Value.str u.email)) with
      | Option.none => .noMatch
      | some u =>
        match pv with
        | .str p => if bcryptVerify p u.passwordHash then .success u else .wrongSecret
        | _ => .typeErr

/-- The `login_node` of `langgraph_nodes.py`: on success it sets the
role, user id and resolved context; a missing credential key is caught
(`except KeyError`) with its own message; both "no such user" and
"wrong secret" produce the same generic failure update. -/
def loginNode (db : DB) (s : AppState) : Except PyError AppState :=
  match loginAttempt db s.user_data with
  | .badRequest =>
    .ok { s with current_role := "unauthenticated",
                 message := "Login requires 'email' and 'password'." }
  | .noMatch =>
    .ok { s with current_role := "unauthenticated", message := "Invalid credentials." }
  | .wrongSecret =>
    .ok { s with current_role := "unauthenticated", message := "Invalid credentials." }
  | .typeErr => .error .typeError
  | .success u =>
    .ok { s with current_role := u.role, current_user_id := some u._id,
                 user_context := resolveContext db u,
                 message := "Login successful! Welcome." }

/-- The nodes of the graph compiled in `main.py`. -/
inductive Node where
  | login
  | logout
  | adminMenu
  | collegeMenu
  | teacherMenu
  | studentMenu
  | addCollege
  | removeCollege
  | listColleges
  | addTeacher
  | removeTeacher
  | listTeachers
  | addStudent
  | generateAssignment
  | sendAssignment
  | getAssignments
  | submitAssignment
  | summarizePdf
deriving DecidableEq, Repr

/-- Oracle for the action handlers whose results come from the LLM /
PDF services and the `assignments` / `submissions` collections, which
are external to the modelled collections; each function receives
exactly the arguments the corresponding `models.py` call receives. -/
structure AiOracle where
  generate : String → PyDict → Option String
  send : Value → Value → Bool
  fetchAssignments : String → String → Value → String
  submit : Value → String → Value → String
  summarize : Value → Value → String

/-- Serialization stand-in for `json.dumps` over a college list (the
claims never inspect this text, only that it becomes the message). -/
def renderColleges (cs : List CollegeDoc) : String :=
  String.intercalate "\n" (cs.map (fun c => c._id ++ ": " ++ c.name))

/-- Serialization stand-in for `json.dumps` over a teacher list. -/
def renderTeachers (ts : List TeacherDoc) : String :=
  String.intercalate "\n" (ts.map (fun t => t._id ++ ": " ++ t.name))

/-- Python `str.lower()` as used by `route_action`, mapped over the
characters so that it evaluates inside the kernel. -/
def pyLower (s : String) : String :=
  String.mk (s.data.map Char.toLower)

/-- Execution-level failures: an uncaught Python exception escaping a
node, or a conditional edge returning a branch name that is not in the
edge map (LangGraph raises on such a branch). -/
inductive ExecError where
  | py (e : PyError)
  | unknownBranch (target : String)
deriving DecidableEq, Repr

/-- One node evaluation: the node functions of `langgraph_nodes.py`,
returning the merged state (each Python node returns a partial dict
that LangGraph merges into the state).  Uncaught exceptions surface as
`ExecError.py`. -/
def applyNode (ai : AiOracle) (n : Node) (db : DB) (s : AppState) :
    Except ExecError (DB × AppState) :=
  match n with
  | .login =>
    match loginNode db s with
    | .ok s2 => .ok (db, s2)
    | .error e => .error (.py e)
  | .logout =>
    .ok (db, { current_role := "unauthenticated", current_user_id := Option.none,
               user_context := [], user_data := [], action := "",
               message := "You have been logged out." })
  | .adminMenu =>
    .ok (db, { s with message := "ADMIN MENU | Actions: [add_college, remove_college, list_colleges, logout]" })
  | .collegeMenu =>
    .ok (db, { s with message := "COLLEGE MENU | Actions: [add_teacher, remove_teacher, list_teachers, logout]" })
  | .teacherMenu =>
    .ok (db, { s with message := "TEACHER MENU | Actions: [add_student, generate_assignment, send_assignment, logout]" })
  | .studentMenu =>
    .ok (db, { s with message := "STUDENT MENU | Actions: [get_assignments, submit_assignment, summarize_pdf, logout]" })
  | .addCollege =>
    match adminAddCollege db s.user_data with
    | .error e => .error (.py e)
    | .ok (db2, some (cdoc, pwd)) =>
      .ok (db2, { s with message := "College '" ++ cdoc.name ++ "' added. Principal's temporary password: " ++ pwd })
    | .ok (db2, Option.none) =>
      .ok (db2, { s with message := "Failed to add college. Check data and try again." })
  | .removeCollege =>
    match dictGet s.user_data "college_id" with
    | Option.none => .error (.py .keyError)
    | some cid =>
      let r := adminRemoveCollege db cid
      .ok (r.1, { s with message := if r.2 then "College removed successfully." else "Failed to remove college or college not found." })
  | .listColleges =>
    let inc := pyTruthy ((dictGet s.user_data "include_inactive").getD (Value.bool false))
    .ok (db, { s with message := renderColleges (adminListColleges db inc) })
  | .addTeacher =>
    match contextGet s.user_context "college_id" with
    | Option.none => .error (.py .keyError)
    | some cid =>
      match collegeAddTeacher db s.user_data cid with
      | .error e => .error (.py e)
      | .ok (db2, some (tdoc, pwd)) =>
        .ok (db2, { s with message := "Teacher '" ++ tdoc.name ++ "' added. Temporary password: " ++ pwd })
      | .ok (db2, Option.none) =>
        .ok (db2, { s with message := "Failed to add teacher." })
  | .removeTeacher =>
    match dictGet s.user_data "teacher_id" with
    | Option.none => .error (.py .keyError)
    | some tid =>
      let r := collegeRemoveTeacher db tid
      .ok (r.1, { s with message := if r.2 then "Teacher removed." else "Failed to remove teacher." })
  | .listTeachers =>
    match contextGet s.user_context "college_id" with
    | Option.none => .error (.py .keyError)
    | some cid =>
      let inc := pyTruthy ((dictGet s.user_data "include_inactive").getD (Value.bool false))
      .ok (db, { s with message := renderTeachers (collegeListTeachers db cid inc) })
  | .addStudent =>
    match contextGet s.user_context "teacher_db_id" with
    | Option.none => .error (.py .keyError)
    | some tid =>
      match contextGet s.user_context "college_id" with
      | Option.none => .error (.py .keyError)
      | some cid =>
        match contextGet s.user_context "assigned_class" with
        | Option.none => .error (.py .keyError)
        | some acls =>
          match teacherAddStudent db s.user_data tid cid acls with
          | .error e => .error (.py e)
          | .ok (db2, some (sdoc, pwd)) =>
            .ok (db2, { s with message := "Student '" ++ sdoc.name ++ "' added. Temporary password: " ++ pwd })
          | .ok (db2, Option.none) =>
            .ok (db2, { s with message := "Failed to add student." })
  | .generateAssignment =>
    match contextGet s.user_context "teacher_db_id" with
    | Option.none => .error (.py .keyError)
    | some tid =>
      match dictGet s.user_data "pdf_file_path" with
      | Option.none => .error (.py .keyError)
      | some _ =>
        match dictGet s.user_data "topic" with
        | Option.none => .error (.py .keyError)
        | some _ =>
          match dictGet s.user_data "num_mcq" with
          | Option.none => .error (.py .keyError)
          | some m1 =>
            match dictGet s.user_data "num_short" with
            | Option.none => .error (.py .keyError)
            | some m2 =>
              match dictGet s.user_data "num_long" with
              | Option.none => .error (.py .keyError)
              | some m3 =>
                if (pyToInt m1).isNone || (pyToInt m2).isNone || (pyToInt m3).isNone then
                  .error (.py .valueError)
                else
                  match ai.generate tid s.user_data with
                  | some aid => .ok (db, { s with message := "Assignment generated! ID: " ++ aid })
                  | Option.none => .ok (db, { s with message := "Failed to generate assignment." })
  | .sendAssignment =>
    match dictGet s.user_data "assignment_id" with
    | Option.none => .error (.py .keyError)
    | some aid =>
      match dictGet s.user_data "class_ids" with
      | Option.none => .error (.py .keyError)
      | some cls =>
        .ok (db, { s with message := if ai.send aid cls then "Assignment sent!" else "Failed to send assignment." })
  | .getAssignments =>
    match contextGet s.user_context "student_db_id" with
    | Option.none => .error (.py .keyError)
    | some sid =>
      match contextGet s.user_context "assigned_class" with
      | Option.none => .error (.py .keyError)
      | some acls =>
        let status := (dictGet s.user_data "status").getD (Value.str "pending")
        .ok (db, { s with message := ai.fetchAssignments sid acls status })
  | .submitAssignment =>
    match contextGet s.user_context "student_db_id" with
    | Option.none => .error (.py .keyError)
    | some sid =>
      match dictGet s.user_data "assignment_id" with
      | Option.none => .error (.py .keyError)
      | some aid =>
        match dictGet s.user_data "answers" with
        | Option.none => .error (.py .keyError)
        | some ans =>
          .ok (db, { s with message := "--- Grade ---\n" ++ ai.submit aid sid ans })
  | .summarizePdf =>
    match dictGet s.user_data "pdf_file_path" with
    | Option.none => .error (.py .keyError)
    | some pdf =>
      match dictGet s.user_data "query" with
      | Option.none => .error (.py .keyError)
      | some q =>
        .ok (db, { s with message := "--- Summary & Answer ---\n" ++ ai.summarize pdf q })

/-- The routing of `main.py`: `route_after_login` maps the current role
through the conditional-edge dictionary of the `login` node
(`unauthenticated` routes back to `login` itself); `route_action`
lowercases the action, returns `END_OF_TURN` (the `END` branch) for an
empty action, `logout` for logout, and the raw action name otherwise —
a name not among the edge-map keys is an unknown branch; action nodes
have static edges back to their menu; `logout` has a static edge to
`END`.  `Option.none` is `END`. -/
def nextNode (n : Node) (s : AppState) : Except ExecError (Option Node) :=
  match n with
  | .login =>
    if s.current_role = "admin" then .ok (some .adminMenu)
    else if s.current_role = "college" then .ok (some .collegeMenu)
    else if s.current_role = "teacher" then .ok (some .teacherMenu)
    else if s.current_role = "student" then .ok (some .studentMenu)
    else if s.current_role = "unauthenticated" then .ok (some .login)
    else .error (.unknownBranch s.current_role)
  | .adminMenu =>
    let a := pyLower s.action
    if a = "" then .ok Option.none
    else if a = "logout" then .ok (some .logout)
    else if a = "add_college" then .ok (some .addCollege)
    else if a = "remove_college" then .ok (some .removeCollege)
    else if a = "list_colleges" then .ok (some .listColleges)
    else .error (.unknownBranch a)
  | .collegeMenu =>
    let a := pyLower s.action
    if a = "" then .ok Option.none
    else if a = "logout" then .ok (some .logout)
    else if a = "add_teacher" then .ok (some .addTeacher)
    else if a = "remove_teacher" then .ok (some .removeTeacher)
    else if a = "list_teachers" then .ok (some .listTeachers)
    else .error (.unknownBranch a)
  | .teacherMenu =>
    let a := pyLower s.action
    if a = "" then .ok Option.none
    else if a = "logout" then .ok (some .logout)
    else if a = "add_student" then .ok (some .addStudent)
    else if a = "generate_assignment" then .ok (some .generateAssignment)
    else if a = "send_assignment" then .ok (some .sendAssignment)
    else .error (.unknownBranch a)
  | .studentMenu =>
    let a := pyLower s.action
    if a = "" then .ok Option.none
    else if a = "logout" then .ok (some .logout)
    else if a = "get_assignments" then .ok (some .getAssignments)
    else if a = "submit_assignment" then .ok (some .submitAssignment)
    else if a = "summarize_pdf" then .ok (some .summarizePdf)
    else .error (.unknownBranch a)
  | .logout => .ok Option.none
  | .addCollege => .ok (some .adminMenu)
  | .removeCollege => .ok (some .adminMenu)
  | .listColleges => .ok (some .adminMenu)
  | .addTeacher => .ok (some .collegeMenu)
  | .removeTeacher => .ok (some .collegeMenu)
  | .listTeachers => .ok (some .collegeMenu)
  | .addStudent => .ok (some .teacherMenu)
  | .generateAssignment => .ok (some .teacherMenu)
  | .sendAssignment => .ok (some .teacherMenu)
  | .getAssignments => .ok (some .studentMenu)
  | .submitAssignment => .ok (some .studentMenu)
  | .summarizePdf => .ok (some .studentMenu)

/-- The observable result of one invocation: a normal stop at `END`
(a halt point), an abort because the step count reached the recursion
limit (LangGraph's `GraphRecursionError`), or an uncaught failure.
Each outcome carries the database as left by the traversal and the
number of node evaluations performed. -/
inductive Outcome where
  | halted (db : DB) (s : AppState) (steps : Nat)
  | aborted (db : DB) (s : AppState) (steps : Nat)
  | failed (e : ExecError) (db : DB) (s : AppState) (steps : Nat)
deriving DecidableEq, Repr

/-- Step executor: evaluate the current node, follow its transition,
and stop at `END`, on error, or when the remaining fuel (the recursion
limit) runs out. -/
def runFrom (ai : AiOracle) : Node → DB → AppState → Nat → Nat → Outcome
  | _, db, s, 0, k => .aborted db s k
  | n, db, s, fuel + 1, k =>
    match applyNode ai n db s with
    | .error e => .failed e db s (k + 1)
    | .ok (db2, s2) =>
      match nextNode n s2 with
      | .error e => .failed e db2 s2 (k + 1)
      | .ok Option.none => .halted db2 s2 (k + 1)
      | .ok (some n2) => runFrom ai n2 db2 s2 fuel (k + 1)

/-- One external invocation of the compiled app (`app.stream(inputs,
config)`).  `main.py` compiles the workflow without a checkpointer, so
the invocation starts from a fresh state populated by the input and
always begins at the entry point `login`. -/
def invoke (ai : AiOracle) (limit : Nat) (db : DB) (inp : Input) : Outcome :=
  runFrom ai .login db (initState inp) limit 0

/-- Steps performed by an invocation. -/
def Outcome.steps : Outcome → Nat
  | .halted _ _ k => k
  | .aborted _ _ k => k
  | .failed _ _ _ k => k

/-- The database after the invocation. -/
def Outcome.finalDb : Outcome → DB
  | .halted db _ _ => db
  | .aborted db _ _ => db
  | .failed _ db _ _ => db

/-- Did the invocation stop normally at a halt point? -/
def Outcome.isHalted : Outcome → Bool
  | .halted _ _ _ => true
  | _ => false

/-- Did the invocation hit the recursion limit? -/
def Outcome.isAborted : Outcome → Bool
  | .aborted _ _ _ => true
  | _ => false

/-- The failure message, if any, that `login_node` attaches to a
non-successful credential check (both `noMatch` and `wrongSecret`
produce the same generic message — by construction there is no
enumeration signal between them). -/
def loginFailMsg : LoginResult → Option String
  | .badRequest => some "Login requires 'email' and 'password'."
  | .noMatch => some "Invalid credentials."
  | .wrongSecret => some "Invalid credentials."
  | _ => Option.none

/-- The menu banner emitted by each role's menu node. -/
def menuMessage (r : String) : String :=
  if r = "admin" then "ADMIN MENU | Actions: [add_college, remove_college, list_colleges, logout]"
  else if r = "college" then "COLLEGE MENU | Actions: [add_teacher, remove_teacher, list_teachers, logout]"
  else if r = "teacher" then "TEACHER MENU | Actions: [add_student, generate_assignment, send_assignment, logout]"
  else if r = "student" then "STUDENT MENU | Actions: [get_assignments, submit_assignment, summarize_pdf, logout]"
  else ""

/-- The action registry of `main.py`: per-role action names wired from
each menu's conditional edges. -/
def menuActionNames (r : String) : List String :=
  if r = "admin" then ["add_college", "remove_college", "list_colleges"]
  else if r = "college" then ["add_teacher", "remove_teacher", "list_teachers"]
  else if r = "teacher" then ["add_student", "generate_assignment", "send_assignment"]
  else if r = "student" then ["get_assignments", "submit_assignment", "summarize_pdf"]
  else []

/-- The state produced by a successful `login_node` evaluation. -/
def loginSuccessState (db : DB) (u : UserDoc) (s : AppState) : AppState :=
  { s with current_role := u.role, current_user_id := some u._id,
           user_context := resolveContext db u, message := "Login successful! Welcome." }

/-- The state `logout_node` leaves behind: every field it returns,
which is every field of the schema. -/
def loggedOutState : AppState :=
  { current_role := "unauthenticated", current_user_id := Option.none,
    user_context := [], user_data := [], action := "",
    message := "You have been logged out." }

/-- Did the `Except` computation finish without raising? -/
def exOk {α : Type} (e : Except PyError α) : Bool :=
  match e with
  | .ok _ => true
  | .error _ => false

/-- Did `Admin.add_college` return a non-`None` document? -/
def addCollegeOk (db : DB) (data : PyDict) : Bool :=
  match adminAddCollege db data with
  | .ok (_, some _) => true
  | _ => false

/-- Did `College.add_teacher` return a non-`None` document? -/
def addTeacherOk (db : DB) (data : PyDict) (cid : String) : Bool :=
  match collegeAddTeacher db data cid with
  | .ok (_, some _) => true
  | _ => false

/-- Did `Teacher.add_student` return a non-`None` document? -/
def addStudentOk (db : DB) (data : PyDict) (tid cid cls : String) : Bool :=
  match teacherAddStudent db data tid cid cls with
  | .ok (_, some _) => true
  | _ => false

/-- The `email` payload entry, when present, is a string (the domain on
which `re.match` does not raise `TypeError`). -/
def emailFieldIsStr (data : PyDict) : Bool :=
  match dictGet data "email" with
  | some (Value.str _) => true
  | some _ => false
  | Option.none => true

/-- User validation for `Admin.add_college` data: required keys present
and the three `User` validators pass. -/
def collegeDataValid (data : PyDict) : Bool :=
  (dictGet data "principal_name").isSome && (dictGet data "phone_no").isSome &&
    (dictGet data "name").isSome &&
    isValidPhone ((dictGet data "phone_no").getD Value.none) &&
    (match dictGet data "email" with | some (Value.str e) => isValidEmailStr e | _ => false) &&
    isValidAge ((dictGet data "principal_age").getD Value.none)

/-- User validation for `College.add_teacher` data. -/
def teacherDataValid (data : PyDict) : Bool :=
  (dictGet data "name").isSome && (dictGet data "age").isSome &&
    (dictGet data "address").isSome && (dictGet data "phone_no").isSome &&
    (dictGet data "assigned_class").isSome &&
    isValidPhone ((dictGet data "phone_no").getD Value.none) &&
    (match dictGet data "email" with | some (Value.str e) => isValidEmailStr e | _ => false) &&
    isValidAge ((dictGet data "age").getD Value.none)

/-- User validation for `Teacher.add_student` data. -/
def studentDataValid (data : PyDict) : Bool :=
  (dictGet data "name").isSome && (dictGet data "age").isSome &&
    (dictGet data "address").isSome && (dictGet data "phone_no").isSome &&
    isValidPhone ((dictGet data "phone_no").getD Value.none) &&
    (match dictGet data "email" with | some (Value.str e) => isValidEmailStr e | _ => false) &&
    isValidAge ((dictGet data "age").getD Value.none)

/-- Oracle instance with trivial external services, used for concrete
evaluations. -/
def ai0 : AiOracle :=
  { generate := fun _ _ => Option.none,
    send := fun _ _ => false,
    fetchAssignments := fun _ _ _ => "",
    submit := fun _ _ _ => "",
    summarize := fun _ _ => "" }

/-- The admin principal created by `create_admin.py`. -/
def adminUser : UserDoc :=
  { _id := "admin-1", name := "Administrator", email := "admin@example.com",
    passwordHash := bcryptHash "abcd1234", role := "admin" }

/-- A database holding just the bootstrap admin. -/
def dbT : DB :=
  { users := [adminUser], colleges := [], teachers := [], students := [], gen := 0 }

/-- Invocation input: the admin login step of `testing.py`. -/
def inpLogin : Input :=
  { user_data := some [("email", Value.str "admin@example.com"),
                       ("password", Value.str "abcd1234")] }

/-- Invocation input: the `add_college` step of `testing.py` (the new
action and payload only, as the second invocation of the session). -/
def inpAddCollege : Input :=
  { action := some "add_college",
    user_data := some [("name", Value.str "First Gen University"),
                       ("principal_name", Value.str "Dr. Alan Turing"),
                       ("principal_age", Value.int 41),
                       ("phone_no", Value.str "9876543210"),
                       ("email", Value.str "principal.turing@fgu.edu")] }

/-- Invocation input: admin credentials with a college-only action. -/
def inpBadAction : Input :=
  { action := some "add_teacher",
    user_data := some [("email", Value.str "admin@example.com"),
                       ("password", Value.str "abcd1234")] }

/-- Invocation input: correct email, wrong secret. -/
def inpWrongPw : Input :=
  { user_data := some [("email", Value.str "admin@example.com"),
                       ("password", Value.str "wrongpass")] }

/-- Invocation input: login payload missing the `password` key. -/
def inpNoPw : Input :=
  { user_data := some [("email", Value.str "admin@example.com")] }

/-- Invocation input: admin credentials plus the `logout` action. -/
def inpLogout : Input :=
  { action := some "logout",
    user_data := some [("email", Value.str "admin@example.com"),
                       ("password", Value.str "abcd1234")] }

/-- Invocation input: admin credentials plus `remove_college` with no
`college_id` in the payload. -/
def inpRemNoId : Input :=
  { action := some "remove_college",
    user_data := some [("email", Value.str "admin@example.com"),
                       ("password", Value.str "abcd1234")] }

/-- A college principal whose user document is untouched by the
soft delete of their college. -/
def pUser : UserDoc :=
  { _id := "p1", name := "P", email := "prin@col.edu",
    passwordHash := bcryptHash "secret12", role := "college" }

/-- The principal's college, soft-deleted (`active = false`). -/
def cInactive : CollegeDoc :=
  { _id := "c1", name := "Old College", principal_name := "P", email := "prin@col.edu",
    principal_user_id := "p1", active := false }

/-- A database in which the only college is inactive. -/
def db4 : DB :=
  { users := [pUser], colleges := [cInactive], teachers := [], students := [], gen := 0 }

/-- Login state for the inactive college's principal with the correct
secret. -/
def s4 : AppState :=
  initState { user_data := some [("email", Value.str "prin@col.edu"),
                                 ("password", Value.str "secret12")] }

/-- College payload whose `email` value is an integer. -/
def data9 : PyDict :=
  [("name", Value.str "C"), ("principal_name", Value.str "P"),
   ("principal_age", Value.int 41), ("phone_no", Value.str "1234567890"),
   ("email", Value.int 5)]

/-- A fully valid college payload. -/
def data9g : PyDict :=
  [("name", Value.str "Uni"), ("principal_name", Value.str "Prof"),
   ("principal_age", Value.int 50), ("phone_no", Value.str "1234567890"),
   ("email", Value.str "p@uni.edu")]

/-- The state at which the admin-login invocation halts (the admin
menu halt point). -/
def stAdmin : AppState :=
  { current_role := "admin", current_user_id := some "admin-1", user_context := [],
    message := "ADMIN MENU | Actions: [add_college, remove_college, list_colleges, logout]",
    user_data := [("email", Value.str "admin@example.com"), ("password", Value.str "abcd1234")],
    action := "" }

/-- Unfolding of one executor step. -/
theorem runFrom_succ (ai : AiOracle) (n : Node) (db : DB) (s : AppState) (fuel k : Nat) :
    runFrom ai n db s (fuel + 1) k =
      (match applyNode ai n db s with
       | .error e => .failed e db s (k + 1)
       | .ok (db2, s2) =>
         match nextNode n s2 with
         | .error e => .failed e db2 s2 (k + 1)
         | .ok Option.none => .halted db2 s2 (k + 1)
         | .ok (some n2) => runFrom ai n2 db2 s2 fuel (k + 1)) := rfl

/-- Fuel exhaustion aborts. -/
theorem runFrom_zero (ai : AiOracle) (n : Node) (db : DB) (s : AppState) (k : Nat) :
    runFrom ai n db s 0 k = .aborted db s k := rfl

/-- Every node other than `login` and `logout` returns only a new
`message`; the role, identity, context, payload and action fields of
the state are unchanged by its evaluation. -/
theorem applyNode_fields {ai : AiOracle} {n : Node} {db : DB} {s : AppState} {db2 : DB}
    {s2 : AppState} (hl : n ≠ Node.login) (ho : n ≠ Node.logout)
    (h : applyNode ai n db s = .ok (db2, s2)) :
    s2.current_role = s.current_role ∧ s2.current_user_id = s.current_user_id ∧
      s2.user_context = s.user_context ∧ s2.user_data = s.user_data ∧
      s2.action = s.action := by
  cases n
  case login => exact absurd rfl hl
  case logout => exact absurd rfl ho
  all_goals
    simp only [applyNode] at h
    repeat' split at h
    all_goals
      first
        | exact Except.noConfusion h
        | (injection h with h
           injection h with h1 h2
           subst h2
           simp)

/-- No node other than `login` routes back to `login`: menus route to
action nodes or `logout`, action nodes route statically to their menu,
`logout` routes to `END`. -/
theorem nextNode_no_login {n m : Node} {s : AppState} (hl : n ≠ Node.login)
    (h : nextNode n s = .ok (some m)) : m ≠ Node.login := by
  cases n
  case login => exact absurd rfl hl
  all_goals
    simp only [nextNode] at h
    repeat' split at h
    all_goals
      first
        | exact Except.noConfusion h
        | (injection h with h
           injection h with h
           subst h
           decide)
        | (injection h with h
           injection h)

/-- Once a traversal has left the `login` node, a normal halt preserves
the authentication fields established there unless `logout` ran, in
which case the final role is `unauthenticated`. -/
theorem run_preserves (ai : AiOracle) :
    ∀ (fuel k : Nat) (n : Node) (db : DB) (s : AppState) (db2 : DB) (s2 : AppState) (k2 : Nat),
      n ≠ Node.login →
      runFrom ai n db s fuel k = .halted db2 s2 k2 →
      (s2.current_role = s.current_role ∧ s2.current_user_id = s.current_user_id ∧
        s2.user_context = s.user_context) ∨ s2.current_role = "unauthenticated" := by
  intro fuel
  induction fuel with
  | zero =>
    intro k n db s db2 s2 k2 _ h
    rw [runFrom_zero] at h
    exact Outcome.noConfusion h
  | succ fuel ih =>
    intro k n db s db2 s2 k2 hl h
    rw [runFrom_succ] at h
    cases hap : applyNode ai n db s with
    | error e =>
      simp only [hap] at h
      exact Outcome.noConfusion h
    | ok p =>
      obtain ⟨db', s'⟩ := p
      simp only [hap] at h
      by_cases hlo : n = Node.logout
      · subst hlo
        simp only [applyNode, Except.ok.injEq, Prod.mk.injEq] at hap
        simp only [nextNode] at h
        have hs2 : s2 = s' := by
          simp only [Outcome.halted.injEq] at h
          exact h.2.1.symm
        right
        rw [hs2, ← hap.2]
      · have hf := applyNode_fields hl hlo hap
        cases hnx : nextNode n s' with
        | error e =>
          simp only [hnx] at h
          exact Outcome.noConfusion h
        | ok o =>
          cases o with
          | none =>
            simp only [hnx] at h
            have hs2 : s2 = s' := by
              simp only [Outcome.halted.injEq] at h
              exact h.2.1.symm
            left
            rw [hs2]
            exact ⟨hf.1, hf.2.1, hf.2.2.1⟩
          | some n2 =>
            simp only [hnx] at h
            have hn2 := nextNode_no_login hl hnx
            rcases ih (k + 1) n2 db' s' db2 s2 k2 hn2 h with hpres | hun
            · left
              exact ⟨hpres.1.trans hf.1, hpres.2.1.trans hf.2.1, hpres.2.2.trans hf.2.2.1⟩
            · right; exact hun

/-- A failed credential check loops: the `unauthenticated` branch of
`route_after_login` routes back to the `login` node, whose input is
unchanged, so the traversal re-executes `login` until the fuel (the
recursion limit) is exhausted and the invocation aborts with the
failure message in place. -/
theorem login_fail_loop (ai : AiOracle) (db : DB) :
    ∀ (fuel k : Nat) (s : AppState) (m : String),
      loginFailMsg (loginAttempt db s.user_data) = some m → 1 ≤ fuel →
      runFrom ai .login db s fuel k =
        .aborted db { s with current_role := "unauthenticated", message := m } (k + fuel) := by
  intro fuel
  induction fuel with
  | zero =>
    intro k s m _ hf
    exact absurd hf (by omega)
  | succ fuel ih =>
    intro k s m hm _
    rw [runFrom_succ]
    have hap : applyNode ai Node.login db s =
        .ok (db, { s with current_role := "unauthenticated", message := m }) := by
      cases hA : loginAttempt db s.user_data with
      | badRequest =>
        rw [hA] at hm
        simp only [loginFailMsg, Option.some.injEq] at hm
        subst hm
        simp [applyNode, loginNode, hA]
      | noMatch =>
        rw [hA] at hm
        simp only [loginFailMsg, Option.some.injEq] at hm
        subst hm
        simp [applyNode, loginNode, hA]
      | wrongSecret =>
        rw [hA] at hm
        simp only [loginFailMsg, Option.some.injEq] at hm
        subst hm
        simp [applyNode, loginNode, hA]
      | typeErr => rw [hA] at hm; exact Option.noConfusion hm
      | success u => rw [hA] at hm; exact Option.noConfusion hm
    simp only [hap]
    have hnx : nextNode Node.login
        { s with current_role := "unauthenticated", message := m } = .ok (some Node.login) := by
      simp [nextNode]
    simp only [hnx]
    cases fuel with
    | zero =>
      rw [runFrom_zero]
    | succ fuel2 =>
      have hm2 : loginFailMsg (loginAttempt db
          ({ s with current_role := "unauthenticated", message := m } : AppState).user_data) =
          some m := hm
      have harith : k + (fuel2 + 1 + 1) = (k + 1) + (fuel2 + 1) := by omega
      rw [harith]
      exact ih (k + 1) { s with current_role := "unauthenticated", message := m } m hm2 (by omega)

/-- A user document whose stored role is `unauthenticated` also loops
at `login` forever (the successful login update routes back to
`login`). -/
theorem login_unauth_loop (ai : AiOracle) (db : DB) :
    ∀ (fuel k : Nat) (s : AppState) (u : UserDoc),
      loginAttempt db s.user_data = .success u → u.role = "unauthenticated" →
      (runFrom ai .login db s fuel k).isAborted = true := by
  intro fuel
  induction fuel with
  | zero =>
    intro k s u _ _
    rw [runFrom_zero]
    rfl
  | succ fuel ih =>
    intro k s u hA hrole
    rw [runFrom_succ]
    have hap : applyNode ai Node.login db s = .ok (db, loginSuccessState db u s) := by
      simp [applyNode, loginNode, hA, loginSuccessState]
    simp only [hap]
    have hnx : nextNode Node.login (loginSuccessState db u s) = .ok (some Node.login) := by
      simp [nextNode, loginSuccessState, hrole]
    simp only [hnx]
    exact ih (k + 1) (loginSuccessState db u s) u hA hrole

/-- The executor performs at most `fuel` node evaluations beyond `k`,
and an abort happens exactly when the budget is spent. -/
theorem runFrom_steps (ai : AiOracle) :
    ∀ (fuel k : Nat) (n : Node) (db : DB) (s : AppState),
      (runFrom ai n db s fuel k).steps ≤ k + fuel ∧
        ((runFrom ai n db s fuel k).isAborted = true →
          (runFrom ai n db s fuel k).steps = k + fuel) := by
  intro fuel
  induction fuel with
  | zero =>
    intro k n db s
    rw [runFrom_zero]
    exact ⟨by simp [Outcome.steps], fun _ => by simp [Outcome.steps]⟩
  | succ fuel ih =>
    intro k n db s
    rw [runFrom_succ]
    cases hap : applyNode ai n db s with
    | error e =>
      simp only [hap, Outcome.steps, Outcome.isAborted]
      exact ⟨by omega, fun hab => Bool.noConfusion hab⟩
    | ok p =>
      obtain ⟨db2, s2⟩ := p
      simp only [hap]
      cases hnx : nextNode n s2 with
      | error e =>
        simp only [hnx, Outcome.steps, Outcome.isAborted]
        exact ⟨by omega, fun hab => Bool.noConfusion hab⟩
      | ok o =>
        cases o with
        | none =>
          simp only [hnx, Outcome.steps, Outcome.isAborted]
          exact ⟨by omega, fun hab => Bool.noConfusion hab⟩
        | some n2 =>
          simp only [hnx]
          have hrec := ih (k + 1) n2 db2 s2
          refine ⟨by have := hrec.1; omega, fun hab => ?_⟩
          have := hrec.2 hab
          omega

/-- The soft delete only flips an `active` flag: lookups by
`principal_user_id` find a college with the same `_id` before and
after `Admin.remove_college`. -/
theorem find_setCollegeInactive_id (cid : Value) (x : String) :
    ∀ l : List CollegeDoc,
      ((setCollegeInactive l cid).1.find?
          (fun c => decide (c.principal_user_id = x))).map CollegeDoc._id =
        (l.find? (fun c => decide (c.principal_user_id = x))).map CollegeDoc._id := by
  intro l
  induction l with
  | nil => rfl
  | cons c rest ih =>
    simp only [setCollegeInactive]
    split
    · by_cases hpc : decide (c.principal_user_id = x) = true
      · simp [List.find?, hpc]
      · simp [List.find?, hpc]
    · by_cases hpc : decide (c.principal_user_id = x) = true
      · simp [List.find?, hpc]
      · simp only [List.find?]
        simp only [Bool.not_eq_true] at hpc
        rw [hpc]
        exact ih

/-- Context resolution is blind to the `active` flags, so soft deleting
a college does not change any resolved context. -/
theorem resolveContext_remove (db : DB) (cid : Value) (u : UserDoc) :
    resolveContext (adminRemoveCollege db cid).1 u = resolveContext db u := by
  have hT : (adminRemoveCollege db cid).1.teachers = db.teachers := rfl
  have hS : (adminRemoveCollege db cid).1.students = db.students := rfl
  unfold resolveContext
  rw [hT, hS]
  by_cases hrole : u.role = "college"
  · rw [if_pos hrole, if_pos hrole]
    have hfind := find_setCollegeInactive_id cid u._id db.colleges
    have hC : (adminRemoveCollege db cid).1.colleges = (setCollegeInactive db.colleges cid).1 := rfl
    rw [hC]
    cases h1 : (setCollegeInactive db.colleges cid).1.find?
        (fun c => decide (c.principal_user_id = u._id)) with
    | none =>
      cases h2 : db.colleges.find? (fun c => decide (c.principal_user_id = u._id)) with
      | none => rfl
      | some c => rw [h1, h2] at hfind; exact Option.noConfusion hfind
    | some c1 =>
      cases h2 : db.colleges.find? (fun c => decide (c.principal_user_id = u._id)) with
      | none => rw [h1, h2] at hfind; exact Option.noConfusion hfind
      | some c2 =>
        rw [h1, h2] at hfind
        have h3 : c1._id = c2._id := by simpa using hfind
        show [("college_id", c1._id)] = [("college_id", c2._id)]
        rw [h3]
  · rw [if_neg hrole, if_neg hrole]

/-- For college payloads with a string (or absent) email value,
`Admin.add_college` succeeds exactly on data passing the `User`
validation, and never raises. -/
theorem addCollege_spec (db : DB) (data : PyDict) (hE : emailFieldIsStr data = true) :
    addCollegeOk db data = collegeDataValid data ∧ exOk (adminAddCollege db data) = true := by
  cases h1 : dictGet data "principal_name" with
  | none => simp [addCollegeOk, adminAddCollege, collegeDataValid, exOk, h1]
  | some pname =>
    cases h2 : dictGet data "phone_no" with
    | none => simp [addCollegeOk, adminAddCollege, collegeDataValid, exOk, h1, h2]
    | some phone =>
      cases h3 : dictGet data "email" with
      | none => simp [addCollegeOk, adminAddCollege, collegeDataValid, exOk, h1, h2, h3]
      | some emailV =>
        cases emailV with
        | str es =>
          by_cases hp : isValidPhone phone = true
          · by_cases he : isValidEmailStr es = true
            · by_cases ha : isValidAge ((dictGet data "principal_age").getD Value.none) = true
              · cases h4 : dictGet data "name" with
                | none =>
                  simp [addCollegeOk, adminAddCollege, collegeDataValid, exOk,
                        h1, h2, h3, h4, hp, he, ha]
                | some nm =>
                  simp [addCollegeOk, adminAddCollege, collegeDataValid, exOk,
                        h1, h2, h3, h4, hp, he, ha]
              · simp [addCollegeOk, adminAddCollege, collegeDataValid, exOk,
                      h1, h2, h3, hp, he, ha]
            · simp [addCollegeOk, adminAddCollege, collegeDataValid, exOk,
                    h1, h2, h3, hp, he]
          · simp [addCollegeOk, adminAddCollege, collegeDataValid, exOk, h1, h2, h3, hp]
        | int n => simp [emailFieldIsStr, h3] at hE
        | bool b => simp [emailFieldIsStr, h3] at hE
        | none => simp [emailFieldIsStr, h3] at hE

/-- For teacher payloads with a string (or absent) email value,
`College.add_teacher` succeeds exactly on data passing the `User`
validation, and never raises. -/
theorem addTeacher_spec (db : DB) (data : PyDict) (cid : String)
    (hE : emailFieldIsStr data = true) :
    addTeacherOk db data cid = teacherDataValid data ∧
      exOk (collegeAddTeacher db data cid) = true := by
  cases h1 : dictGet data "name" with
  | none => simp [addTeacherOk, collegeAddTeacher, teacherDataValid, exOk, h1]
  | some nameV =>
    cases h2 : dictGet data "age" with
    | none => simp [addTeacherOk, collegeAddTeacher, teacherDataValid, exOk, h1, h2]
    | some ageV =>
      cases h3 : dictGet data "address" with
      | none => simp [addTeacherOk, collegeAddTeacher, teacherDataValid, exOk, h1, h2, h3]
      | some adr =>
        cases h4 : dictGet data "phone_no" with
        | none =>
          simp [addTeacherOk, collegeAddTeacher, teacherDataValid, exOk, h1, h2, h3, h4]
        | some phone =>
          cases h5 : dictGet data "email" with
          | none =>
            simp [addTeacherOk, collegeAddTeacher, teacherDataValid, exOk, h1, h2, h3, h4, h5]
          | some emailV =>
            cases emailV with
            | str es =>
              by_cases hp : isValidPhone phone = true
              · by_cases he : isValidEmailStr es = true
                · by_cases ha : isValidAge ageV = true
                  · cases h6 : dictGet data "assigned_class" with
                    | none =>
                      simp [addTeacherOk, collegeAddTeacher, teacherDataValid, exOk,
                            h1, h2, h3, h4, h5, h6, hp, he, ha]
                    | some acls =>
                      simp [addTeacherOk, collegeAddTeacher, teacherDataValid, exOk,
                            h1, h2, h3, h4, h5, h6, hp, he, ha]
                  · simp [addTeacherOk, collegeAddTeacher, teacherDataValid, exOk,
                          h1, h2, h3, h4, h5, hp, he, ha]
                · simp [addTeacherOk, collegeAddTeacher, teacherDataValid, exOk,
                        h1, h2, h3, h4, h5, hp, he]
              · simp [addTeacherOk, collegeAddTeacher, teacherDataValid, exOk,
                      h1, h2, h3, h4, h5, hp]
            | int n => simp [emailFieldIsStr, h5] at hE
            | bool b => simp [emailFieldIsStr, h5] at hE
            | none => simp [emailFieldIsStr, h5] at hE

/-- For student payloads with a string (or absent) email value,
`Teacher.add_student` succeeds exactly on data passing the `User`
validation, and never raises. -/
theorem addStudent_spec (db : DB) (data : PyDict) (tid cid cls : String)
    (hE : emailFieldIsStr data = true) :
    addStudentOk db data tid cid cls = studentDataValid data ∧
      exOk (teacherAddStudent db data tid cid cls) = true := by
  cases h1 : dictGet data "name" with
  | none => simp [addStudentOk, teacherAddStudent, studentDataValid, exOk, h1]
  | some nameV =>
    cases h2 : dictGet data "age" with
    | none => simp [addStudentOk, teacherAddStudent, studentDataValid, exOk, h1, h2]
    | some ageV =>
      cases h3 : dictGet data "address" with
      | none => simp [addStudentOk, teacherAddStudent, studentDataValid, exOk, h1, h2, h3]
      | some adr =>
        cases h4 : dictGet data "phone_no" with
        | none =>
          simp [addStudentOk, teacherAddStudent, studentDataValid, exOk, h1, h2, h3, h4]
        | some phone =>
          cases h5 : dictGet data "email" with
          | none =>
            simp [addStudentOk, teacherAddStudent, studentDataValid, exOk, h1, h2, h3, h4, h5]
          | some emailV =>
            cases emailV with
            | str es =>
              by_cases hp : isValidPhone phone = true
              · by_cases he : isValidEmailStr es = true
                · by_cases ha : isValidAge ageV = true
                  · simp [addStudentOk, teacherAddStudent, studentDataValid, exOk,
                          h1, h2, h3, h4, h5, hp, he, ha]
                  · simp [addStudentOk, teacherAddStudent, studentDataValid, exOk,
                          h1, h2, h3, h4, h5, hp, he, ha]
                · simp [addStudentOk, teacherAddStudent, studentDataValid, exOk,
                        h1, h2, h3, h4, h5, hp, he]
              · simp [addStudentOk, teacherAddStudent, studentDataValid, exOk,
                      h1, h2, h3, h4, h5, hp]
            | int n => simp [emailFieldIsStr, h5] at hE
            | bool b => simp [emailFieldIsStr, h5] at hE
            | none => simp [emailFieldIsStr, h5] at hE

/-- Claim C1: the code does not resume an authenticated session.
`testing.py` logs in as admin and then submits `add_college` as a
separate invocation of the same session, expecting the handler to run
exactly once; `main.py` compiles the graph without a checkpointer and
its entry point is `login`, so the second invocation restarts at
`login` with only the new input, hits the missing-`password`
`KeyError`, loops `login -> login` through the `unauthenticated`
conditional edge, and aborts at the 150-step recursion limit with the
college collection untouched — the action handler runs zero times. -/
theorem C1_no_session_resume :
    (invoke ai0 150 dbT inpAddCollege).isAborted = true ∧
      (invoke ai0 150 dbT inpAddCollege).finalDb = dbT := ⟨rfl, rfl⟩

/-- Claim C2: in any invocation, over any database, client input and
oracle, if the traversal halts with an authenticated role then the
identity is the `_id` of the user document found by the credential
check on the invocation's own payload, and the authorization context
is exactly what the resolver derived from the database at that login —
client-supplied `current_user_id` / `user_context` input fields never
survive, because the `login` entry node overwrites them. -/
theorem C2_auth_context_invariant (ai : AiOracle) (limit : Nat) (db : DB) (inp : Input)
    (db2 : DB) (s2 : AppState) (k2 : Nat)
    (h : invoke ai limit db inp = .halted db2 s2 k2)
    (hr : s2.current_role ≠ "unauthenticated") :
    ∃ u : UserDoc, loginAttempt db (initState inp).user_data = .success u ∧
      s2.current_user_id = some u._id ∧ s2.current_role = u.role ∧
      s2.user_context = resolveContext db u := by
  unfold invoke at h
  cases limit with
  | zero => rw [runFrom_zero] at h; exact Outcome.noConfusion h
  | succ fuel =>
    cases hA : loginAttempt db (initState inp).user_data with
    | badRequest =>
      have hloop := login_fail_loop ai db (fuel + 1) 0 (initState inp)
        "Login requires 'email' and 'password'." (by rw [hA]; rfl) (by omega)
      rw [hloop] at h
      exact Outcome.noConfusion h
    | noMatch =>
      have hloop := login_fail_loop ai db (fuel + 1) 0 (initState inp)
        "Invalid credentials." (by rw [hA]; rfl) (by omega)
      rw [hloop] at h
      exact Outcome.noConfusion h
    | wrongSecret =>
      have hloop := login_fail_loop ai db (fuel + 1) 0 (initState inp)
        "Invalid credentials." (by rw [hA]; rfl) (by omega)
      rw [hloop] at h
      exact Outcome.noConfusion h
    | typeErr =>
      rw [runFrom_succ] at h
      have hap : applyNode ai Node.login db (initState inp) = .error (.py .typeError) := by
        simp [applyNode, loginNode, hA]
      simp only [hap] at h
      exact Outcome.noConfusion h
    | success u =>
      rw [runFrom_succ] at h
      have hap : applyNode ai Node.login db (initState inp) =
          .ok (db, loginSuccessState db u (initState inp)) := by
        simp [applyNode, loginNode, hA, loginSuccessState]
      simp only [hap] at h
      by_cases h1 : u.role = "admin"
      · have hnx : nextNode Node.login (loginSuccessState db u (initState inp)) =
            .ok (some Node.adminMenu) := by
          simp [nextNode, loginSuccessState, h1]
        simp only [hnx] at h
        rcases run_preserves ai fuel 1 Node.adminMenu db (loginSuccessState db u (initState inp))
            db2 s2 k2 (by decide) h with hpres | hun
        · exact ⟨u, rfl, hpres.2.1, hpres.1, hpres.2.2⟩
        · exact absurd hun hr
      · by_cases h2 : u.role = "college"
        · have hnx : nextNode Node.login (loginSuccessState db u (initState inp)) =
              .ok (some Node.collegeMenu) := by
            simp [nextNode, loginSuccessState, h2]
          simp only [hnx] at h
          rcases run_preserves ai fuel 1 Node.collegeMenu db
              (loginSuccessState db u (initState inp)) db2 s2 k2 (by decide) h with hpres | hun
          · exact ⟨u, rfl, hpres.2.1, hpres.1, hpres.2.2⟩
          · exact absurd hun hr
        · by_cases h3 : u.role = "teacher"
          · have hnx : nextNode Node.login (loginSuccessState db u (initState inp)) =
                .ok (some Node.teacherMenu) := by
              simp [nextNode, loginSuccessState, h3]
            simp only [hnx] at h
            rcases run_preserves ai fuel 1 Node.teacherMenu db
                (loginSuccessState db u (initState inp)) db2 s2 k2 (by decide) h with hpres | hun
            · exact ⟨u, rfl, hpres.2.1, hpres.1, hpres.2.2⟩
            · exact absurd hun hr
          · by_cases h4 : u.role = "student"
            · have hnx : nextNode Node.login (loginSuccessState db u (initState inp)) =
                  .ok (some Node.studentMenu) := by
                simp [nextNode, loginSuccessState, h4]
              simp only [hnx] at h
              rcases run_preserves ai fuel 1 Node.studentMenu db
                  (loginSuccessState db u (initState inp)) db2 s2 k2 (by decide) h with hpres | hun
              · exact ⟨u, rfl, hpres.2.1, hpres.1, hpres.2.2⟩
              · exact absurd hun hr
            · by_cases h5 : u.role = "unauthenticated"
              · have hnx : nextNode Node.login (loginSuccessState db u (initState inp)) =
                    .ok (some Node.login) := by
                  simp [nextNode, loginSuccessState, h1, h2, h3, h4, h5]
                simp only [hnx] at h
                have hl := login_unauth_loop ai db fuel 1
                  (loginSuccessState db u (initState inp)) u hA h5
                rw [h] at hl
                simp [Outcome.isAborted] at hl
              · have hnx : nextNode Node.login (loginSuccessState db u (initState inp)) =
                    .error (.unknownBranch u.role) := by
                  simp [nextNode, loginSuccessState, h1, h2, h3, h4, h5]
                simp only [hnx] at h
                exact Outcome.noConfusion h

/-- Claim C2 witness: the admin-login invocation halts authenticated at
the admin menu, and the invariant instantiates there. -/
theorem C2_auth_context_invariant_witness :
    ∃ u : UserDoc, loginAttempt dbT (initState inpLogin).user_data = .success u ∧
      stAdmin.current_user_id = some u._id ∧ stAdmin.current_role = u.role ∧
      stAdmin.user_context = resolveContext dbT u :=
  C2_auth_context_invariant ai0 100 dbT inpLogin dbT stAdmin 2 (by rfl) (by decide)

/-- Claim C3 counterexample: an admin submitting the college-only
action `add_teacher` does not get a cleared `pending_action`, an error
message and a halt at the menu — `route_action` returns the raw action
name, which is not a key of the admin menu's conditional-edge map, so
the invocation fails with an unknown-branch routing error, the action
still set and the message still the menu banner. -/
theorem C3_invalid_action_cex :
    (invoke ai0 100 dbT inpBadAction).isHalted = false ∧
      invoke ai0 100 dbT inpBadAction =
        .failed (.unknownBranch "add_teacher") dbT
          { current_role := "admin", current_user_id := some "admin-1", user_context := [],
            message := "ADMIN MENU | Actions: [add_college, remove_college, list_colleges, logout]",
            user_data := [("email", Value.str "admin@example.com"),
                          ("password", Value.str "abcd1234")],
            action := "add_teacher" } 2 := ⟨by rfl, by rfl⟩

/-- Claim C3 as amended: for any authenticated role, an action that is
neither empty, nor `logout`, nor in that role's registry is returned
verbatim by `route_action`; it is not a key of the menu's edge map, so
the invocation fails with an unknown-branch error after exactly the
login and menu evaluations: no handler runs, the database is unchanged,
`pending_action` is not cleared, and no error message is set (the
message is still the menu banner). -/
theorem C3_invalid_action_routing (ai : AiOracle) (limit : Nat) (db : DB) (inp : Input)
    (u : UserDoc) (hlim : 2 ≤ limit)
    (hA : loginAttempt db (initState inp).user_data = .success u)
    (hrole : u.role = "admin" ∨ u.role = "college" ∨ u.role = "teacher" ∨ u.role = "student")
    (hne : pyLower (initState inp).action ≠ "")
    (hnl : pyLower (initState inp).action ≠ "logout")
    (hreg : pyLower (initState inp).action ∉ menuActionNames u.role) :
    invoke ai limit db inp =
      .failed (.unknownBranch (pyLower (initState inp).action)) db
        { loginSuccessState db u (initState inp) with message := menuMessage u.role } 2 := by
  obtain ⟨m, rfl⟩ : ∃ m, limit = m + 2 := ⟨limit - 2, by omega⟩
  unfold invoke
  rw [show m + 2 = m + 1 + 1 from rfl, runFrom_succ]
  have hap : applyNode ai Node.login db (initState inp) =
      .ok (db, loginSuccessState db u (initState inp)) := by
    simp [applyNode, loginNode, hA, loginSuccessState]
  simp only [hap]
  rcases hrole with h1 | h1 | h1 | h1
  · have hnx : nextNode Node.login (loginSuccessState db u (initState inp)) =
        .ok (some Node.adminMenu) := by
      simp [nextNode, loginSuccessState, h1]
    simp only [hnx]
    rw [runFrom_succ]
    have hap2 : applyNode ai Node.adminMenu db (loginSuccessState db u (initState inp)) =
        .ok (db, { loginSuccessState db u (initState inp) with message := menuMessage u.role }) := by
      simp [applyNode, menuMessage, h1]
    simp only [hap2]
    obtain ⟨hx1, hx2, hx3⟩ : pyLower (initState inp).action ≠ "add_college" ∧
        pyLower (initState inp).action ≠ "remove_college" ∧
        pyLower (initState inp).action ≠ "list_colleges" := by
      rw [h1] at hreg
      simpa [menuActionNames, not_or] using hreg
    have hnx2 : nextNode Node.adminMenu
        ({ loginSuccessState db u (initState inp) with message := menuMessage u.role }) =
        .error (.unknownBranch (pyLower (initState inp).action)) := by
      simp [nextNode, loginSuccessState, hne, hnl, hx1, hx2, hx3]
    simp only [hnx2]
  · have hnx : nextNode Node.login (loginSuccessState db u (initState inp)) =
        .ok (some Node.collegeMenu) := by
      simp [nextNode, loginSuccessState, h1]
    simp only [hnx]
    rw [runFrom_succ]
    have hap2 : applyNode ai Node.collegeMenu db (loginSuccessState db u (initState inp)) =
        .ok (db, { loginSuccessState db u (initState inp) with message := menuMessage u.role }) := by
      simp [applyNode, menuMessage, h1]
    simp only [hap2]
    obtain ⟨hx1, hx2, hx3⟩ : pyLower (initState inp).action ≠ "add_teacher" ∧
        pyLower (initState inp).action ≠ "remove_teacher" ∧
        pyLower (initState inp).action ≠ "list_teachers" := by
      rw [h1] at hreg
      simpa [menuActionNames, not_or] using hreg
    have hnx2 : nextNode Node.collegeMenu
        ({ loginSuccessState db u (initState inp) with message := menuMessage u.role }) =
        .error (.unknownBranch (pyLower (initState inp).action)) := by
      simp [nextNode, loginSuccessState, hne, hnl, hx1, hx2, hx3]
    simp only [hnx2]
  · have hnx : nextNode Node.login (loginSuccessState db u (initState inp)) =
        .ok (some Node.teacherMenu) := by
      simp [nextNode, loginSuccessState, h1]
    simp only [hnx]
    rw [runFrom_succ]
    have hap2 : applyNode ai Node.teacherMenu db (loginSuccessState db u (initState inp)) =
        .ok (db, { loginSuccessState db u (initState inp) with message := menuMessage u.role }) := by
      simp [applyNode, menuMessage, h1]
    simp only [hap2]
    obtain ⟨hx1, hx2, hx3⟩ : pyLower (initState inp).action ≠ "add_student" ∧
        pyLower (initState inp).action ≠ "generate_assignment" ∧
        pyLower (initState inp).action ≠ "send_assignment" := by
      rw [h1] at hreg
      simpa [menuActionNames, not_or] using hreg
    have hnx2 : nextNode Node.teacherMenu
        ({ loginSuccessState db u (initState inp) with message := menuMessage u.role }) =
        .error (.unknownBranch (pyLower (initState inp).action)) := by
      simp [nextNode, loginSuccessState, hne, hnl, hx1, hx2, hx3]
    simp only [hnx2]
  · have hnx : nextNode Node.login (loginSuccessState db u (initState inp)) =
        .ok (some Node.studentMenu) := by
      simp [nextNode, loginSuccessState, h1]
    simp only [hnx]
    rw [runFrom_succ]
    have hap2 : applyNode ai Node.studentMenu db (loginSuccessState db u (initState inp)) =
        .ok (db, { loginSuccessState db u (initState inp) with message := menuMessage u.role }) := by
      simp [applyNode, menuMessage, h1]
    simp only [hap2]
    obtain ⟨hx1, hx2, hx3⟩ : pyLower (initState inp).action ≠ "get_assignments" ∧
        pyLower (initState inp).action ≠ "submit_assignment" ∧
        pyLower (initState inp).action ≠ "summarize_pdf" := by
      rw [h1] at hreg
      simpa [menuActionNames, not_or] using hreg
    have hnx2 : nextNode Node.studentMenu
        ({ loginSuccessState db u (initState inp) with message := menuMessage u.role }) =
        .error (.unknownBranch (pyLower (initState inp).action)) := by
      simp [nextNode, loginSuccessState, hne, hnl, hx1, hx2, hx3]
    simp only [hnx2]

/-- Claim C3 witness: the amended behaviour at the concrete
cross-role input. -/
theorem C3_invalid_action_routing_witness :
    invoke ai0 100 dbT inpBadAction =
      .failed (.unknownBranch (pyLower (initState inpBadAction).action)) dbT
        { loginSuccessState dbT adminUser (initState inpBadAction) with
          message := menuMessage adminUser.role } 2 :=
  C3_invalid_action_routing ai0 100 dbT inpBadAction adminUser (by omega) (by rfl)
    (Or.inl rfl) (by decide) (by decide) (by decide)

/-- Claim C4 counterexample: the only college in `db4` is soft-deleted,
yet its principal's correct secret verifies and yields the
authenticated `college` role, the principal's user id and the college
context — `login_node` queries `users_collection` by email only and
never consults an `active` flag. -/
theorem C4_inactive_principal_cex :
    db4.colleges.map CollegeDoc.active = [false] ∧
      loginNode db4 s4 = .ok ({ s4 with
        current_role := "college", current_user_id := some "p1",
        user_context := [("college_id", "c1")],
        message := "Login successful! Welcome." }) := ⟨by rfl, by rfl⟩

/-- Claim C4 as amended: credential verification ignores the
soft-delete status entirely — `Admin.remove_college` never changes any
login outcome, so a correct secret for an inactive principal
authenticates exactly as for an active one; the indistinguishability
that does hold is between a nonexistent identity and a wrong secret,
which produce the identical generic failure update. -/
theorem C4_login_ignores_soft_delete :
    (∀ (db : DB) (cid : Value) (s : AppState),
        loginNode (adminRemoveCollege db cid).1 s = loginNode db s) ∧
      (∀ (db : DB) (s : AppState),
        (loginAttempt db s.user_data = .noMatch ∨ loginAttempt db s.user_data = .wrongSecret) →
        loginNode db s = .ok ({ s with
          current_role := "unauthenticated", message := "Invalid credentials." })) := by
  constructor
  · intro db cid s
    have hA : loginAttempt (adminRemoveCollege db cid).1 s.user_data =
        loginAttempt db s.user_data := rfl
    unfold loginNode
    rw [hA]
    cases hAt : loginAttempt db s.user_data with
    | badRequest => rfl
    | noMatch => rfl
    | wrongSecret => rfl
    | typeErr => rfl
    | success u => simp only [resolveContext_remove]
  · intro db s h
    rcases h with h | h <;> simp [loginNode, h]

/-- Claim C4 witness: a wrong secret produces the same generic failure
update that a nonexistent identity produces. -/
theorem C4_login_ignores_soft_delete_witness :
    loginNode db4 (initState { user_data := some [("email", Value.str "prin@col.edu"),
                                                  ("password", Value.str "nope")] }) =
      .ok ({ initState { user_data := some [("email", Value.str "prin@col.edu"),
                                            ("password", Value.str "nope")] } with
        current_role := "unauthenticated", message := "Invalid credentials." }) :=
  C4_login_ignores_soft_delete.2 db4 _ (Or.inr (by rfl))

/-- Claim C5 counterexample: a wrong secret does not leave the session
halted at the Login halt point — the invocation aborts on the
recursion ceiling instead. -/
theorem C5_login_failure_cex :
    (invoke ai0 100 dbT inpWrongPw).isHalted = false ∧
      (invoke ai0 100 dbT inpWrongPw).isAborted = true := ⟨by rfl, by rfl⟩

/-- Claim C5 as amended: on credential-verification failure the Login
node sets the unauthenticated role with the generic message, but the
`unauthenticated` conditional edge routes back to `login`, whose input
is unchanged, so the node is re-executed until the step ceiling:
the traversal never halts, and the invocation aborts with the step
count equal to the recursion limit and the generic message in place. -/
theorem C5_login_failure_aborts (ai : AiOracle) (limit : Nat) (db : DB) (inp : Input)
    (hlim : 1 ≤ limit)
    (hA : loginAttempt db (initState inp).user_data = .noMatch ∨
      loginAttempt db (initState inp).user_data = .wrongSecret) :
    invoke ai limit db inp =
      .aborted db ({ initState inp with
        current_role := "unauthenticated", message := "Invalid credentials." }) limit := by
  unfold invoke
  have hm : loginFailMsg (loginAttempt db (initState inp).user_data) =
      some "Invalid credentials." := by
    rcases hA with h | h <;> rw [h] <;> rfl
  have := login_fail_loop ai db limit 0 (initState inp) "Invalid credentials." hm hlim
  simpa using this

/-- Claim C5 witness: the wrong-secret login aborts at a ceiling of 5
with the login node executed five times. -/
theorem C5_login_failure_aborts_witness :
    invoke ai0 5 dbT inpWrongPw =
      .aborted dbT ({ initState inpWrongPw with
        current_role := "unauthenticated", message := "Invalid credentials." }) 5 :=
  C5_login_failure_aborts ai0 5 dbT inpWrongPw (by omega) (Or.inr (by rfl))

/-- Claim C6 counterexample: an invalid payload shape is not caught at
the Action node boundary — `remove_college` with no `college_id` key
raises `KeyError` out of the node and the invocation fails off-menu
instead of returning to the admin menu with a failure message. -/
theorem C6_uncaught_payload_cex :
    invoke ai0 10 dbT inpRemNoId =
      .failed (.py .keyError) dbT
        { current_role := "admin", current_user_id := some "admin-1", user_context := [],
          message := "ADMIN MENU | Actions: [add_college, remove_college, list_colleges, logout]",
          user_data := [("email", Value.str "admin@example.com"),
                        ("password", Value.str "abcd1234")],
          action := "remove_college" } 3 := by rfl

/-- Claim C6 as amended: a handler failure that is returned (the
`(None, None)` path of `Admin.add_college`, or a `modified_count` of
zero from `Admin.remove_college`) is surfaced as the generic failure
message and the action node's static edge routes back to the admin
menu exactly as on success; but failures raised at the node boundary
(a missing payload key) propagate uncaught. -/
theorem C6_handler_failure_message :
    (∀ (ai : AiOracle) (db db2 : DB) (s : AppState),
        adminAddCollege db s.user_data = .ok (db2, Option.none) →
        applyNode ai Node.addCollege db s =
          .ok (db2, { s with message := "Failed to add college. Check data and try again." }) ∧
        nextNode Node.addCollege
          ({ s with message := "Failed to add college. Check data and try again." }) =
          .ok (some Node.adminMenu)) ∧
      (∀ (ai : AiOracle) (db : DB) (s : AppState) (cid : Value),
        dictGet s.user_data "college_id" = some cid → (adminRemoveCollege db cid).2 = false →
        applyNode ai Node.removeCollege db s =
          .ok ((adminRemoveCollege db cid).1,
            { s with message := "Failed to remove college or college not found." }) ∧
        nextNode Node.removeCollege
          ({ s with message := "Failed to remove college or college not found." }) =
          .ok (some Node.adminMenu)) := by
  constructor
  · intro ai db db2 s h
    exact ⟨by simp [applyNode, h], rfl⟩
  · intro ai db s cid h hmod
    refine ⟨?_, rfl⟩
    simp [applyNode, h, hmod]

/-- Claim C6 witness: a payload failing validation yields the generic
failure message and the route back to the admin menu. -/
theorem C6_handler_failure_message_witness :
    applyNode ai0 Node.addCollege dbT
        (initState { user_data := some [("principal_name", Value.str "X")] }) =
      .ok (dbT, { initState { user_data := some [("principal_name", Value.str "X")] } with
        message := "Failed to add college. Check data and try again." }) ∧
      nextNode Node.addCollege
        ({ initState { user_data := some [("principal_name", Value.str "X")] } with
          message := "Failed to add college. Check data and try again." }) =
        .ok (some Node.adminMenu) :=
  C6_handler_failure_message.1 ai0 dbT dbT _ (by rfl)

/-- Claim C7: from any authenticated role, submitting `logout` routes
menu -> logout -> END: the logout node clears the identity, sets the
role to `unauthenticated`, clears the context, payload and pending
action, sets the logout confirmation message, and the traversal is
terminal after exactly three node evaluations (login, menu, logout) —
no further node runs and the database is untouched. -/
theorem C7_logout_terminal (ai : AiOracle) (limit : Nat) (db : DB) (inp : Input) (u : UserDoc)
    (hlim : 3 ≤ limit)
    (hA : loginAttempt db (initState inp).user_data = .success u)
    (hrole : u.role = "admin" ∨ u.role = "college" ∨ u.role = "teacher" ∨ u.role = "student")
    (hact : pyLower (initState inp).action = "logout") :
    invoke ai limit db inp = .halted db loggedOutState 3 := by
  obtain ⟨m, rfl⟩ : ∃ m, limit = m + 3 := ⟨limit - 3, by omega⟩
  unfold invoke
  rw [show m + 3 = m + 2 + 1 from rfl, runFrom_succ]
  have hap : applyNode ai Node.login db (initState inp) =
      .ok (db, loginSuccessState db u (initState inp)) := by
    simp [applyNode, loginNode, hA, loginSuccessState]
  simp only [hap]
  rcases hrole with h1 | h1 | h1 | h1
  · have hnx : nextNode Node.login (loginSuccessState db u (initState inp)) =
        .ok (some Node.adminMenu) := by
      simp [nextNode, loginSuccessState, h1]
    simp only [hnx]
    rw [show m + 2 = m + 1 + 1 from rfl, runFrom_succ]
    have hap2 : applyNode ai Node.adminMenu db (loginSuccessState db u (initState inp)) =
        .ok (db, { loginSuccessState db u (initState inp) with
          message := "ADMIN MENU | Actions: [add_college, remove_college, list_colleges, logout]" }) := by
      simp [applyNode]
    simp only [hap2]
    have hnx2 : nextNode Node.adminMenu
        ({ loginSuccessState db u (initState inp) with
          message := "ADMIN MENU | Actions: [add_college, remove_college, list_colleges, logout]" }) =
        .ok (some Node.logout) := by
      simp [nextNode, loginSuccessState, hact]
    simp only [hnx2]
    rw [runFrom_succ]
    have hap3 : applyNode ai Node.logout db
        ({ loginSuccessState db u (initState inp) with
          message := "ADMIN MENU | Actions: [add_college, remove_college, list_colleges, logout]" }) =
        .ok (db, loggedOutState) := rfl
    simp only [hap3]
    have hnx3 : nextNode Node.logout loggedOutState = .ok Option.none := rfl
    simp only [hnx3]
  · have hnx : nextNode Node.login (loginSuccessState db u (initState inp)) =
        .ok (some Node.collegeMenu) := by
      simp [nextNode, loginSuccessState, h1]
    simp only [hnx]
    rw [show m + 2 = m + 1 + 1 from rfl, runFrom_succ]
    have hap2 : applyNode ai Node.collegeMenu db (loginSuccessState db u (initState inp)) =
        .ok (db, { loginSuccessState db u (initState inp) with
          message := "COLLEGE MENU | Actions: [add_teacher, remove_teacher, list_teachers, logout]" }) := by
      simp [applyNode]
    simp only [hap2]
    have hnx2 : nextNode Node.collegeMenu
        ({ loginSuccessState db u (initState inp) with
          message := "COLLEGE MENU | Actions: [add_teacher, remove_teacher, list_teachers, logout]" }) =
        .ok (some Node.logout) := by
      simp [nextNode, loginSuccessState, hact]
    simp only [hnx2]
    rw [runFrom_succ]
    have hap3 : applyNode ai Node.logout db
        ({ loginSuccessState db u (initState inp) with
          message := "COLLEGE MENU | Actions: [add_teacher, remove_teacher, list_teachers, logout]" }) =
        .ok (db, loggedOutState) := rfl
    simp only [hap3]
    have hnx3 : nextNode Node.logout loggedOutState = .ok Option.none := rfl
    simp only [hnx3]
  · have hnx : nextNode Node.login (loginSuccessState db u (initState inp)) =
        .ok (some Node.teacherMenu) := by
      simp [nextNode, loginSuccessState, h1]
    simp only [hnx]
    rw [show m + 2 = m + 1 + 1 from rfl, runFrom_succ]
    have hap2 : applyNode ai Node.teacherMenu db (loginSuccessState db u (initState inp)) =
        .ok (db, { loginSuccessState db u (initState inp) with
          message := "TEACHER MENU | Actions: [add_student, generate_assignment, send_assignment, logout]" }) := by
      simp [applyNode]
    simp only [hap2]
    have hnx2 : nextNode Node.teacherMenu
        ({ loginSuccessState db u (initState inp) with
          message := "TEACHER MENU | Actions: [add_student, generate_assignment, send_assignment, logout]" }) =
        .ok (some Node.logout) := by
      simp [nextNode, loginSuccessState, hact]
    simp only [hnx2]
    rw [runFrom_succ]
    have hap3 : applyNode ai Node.logout db
        ({ loginSuccessState db u (initState inp) with
          message := "TEACHER MENU | Actions: [add_student, generate_assignment, send_assignment, logout]" }) =
        .ok (db, loggedOutState) := rfl
    simp only [hap3]
    have hnx3 : nextNode Node.logout loggedOutState = .ok Option.none := rfl
    simp only [hnx3]
  · have hnx : nextNode Node.login (loginSuccessState db u (initState inp)) =
        .ok (some Node.studentMenu) := by
      simp [nextNode, loginSuccessState, h1]
    simp only [hnx]
    rw [show m + 2 = m + 1 + 1 from rfl, runFrom_succ]
    have hap2 : applyNode ai Node.studentMenu db (loginSuccessState db u (initState inp)) =
        .ok (db, { loginSuccessState db u (initState inp) with
          message := "STUDENT MENU | Actions: [get_assignments, submit_assignment, summarize_pdf, logout]" }) := by
      simp [applyNode]
    simp only [hap2]
    have hnx2 : nextNode Node.studentMenu
        ({ loginSuccessState db u (initState inp) with
          message := "STUDENT MENU | Actions: [get_assignments, submit_assignment, summarize_pdf, logout]" }) =
        .ok (some Node.logout) := by
      simp [nextNode, loginSuccessState, hact]
    simp only [hnx2]
    rw [runFrom_succ]
    have hap3 : applyNode ai Node.logout db
        ({ loginSuccessState db u (initState inp) with
          message := "STUDENT MENU | Actions: [get_assignments, submit_assignment, summarize_pdf, logout]" }) =
        .ok (db, loggedOutState) := rfl
    simp only [hap3]
    have hnx3 : nextNode Node.logout loggedOutState = .ok Option.none := rfl
    simp only [hnx3]

/-- Claim C7 witness: the admin logout invocation. -/
theorem C7_logout_terminal_witness :
    invoke ai0 100 dbT inpLogout = .halted dbT loggedOutState 3 :=
  C7_logout_terminal ai0 100 dbT inpLogout adminUser (by omega) (by rfl) (Or.inl rfl) (by rfl)

/-- Claim C8: every invocation terminates; the step count never
exceeds the configured recursion limit, and an abort (LangGraph's
`GraphRecursionError`, raised rather than retried) happens exactly
when the whole budget is spent. -/
theorem C8_step_ceiling (ai : AiOracle) (limit : Nat) (db : DB) (inp : Input) :
    (invoke ai limit db inp).steps ≤ limit ∧
      ((invoke ai limit db inp).isAborted = true → (invoke ai limit db inp).steps = limit) := by
  have h := runFrom_steps ai limit 0 Node.login db (initState inp)
  unfold invoke
  simpa using h

/-- Claim C8 witness: the credential-less `add_college` invocation of
`testing.py` spends exactly its ceiling of 150 steps and aborts. -/
theorem C8_step_ceiling_witness :
    (invoke ai0 150 dbT inpAddCollege).steps = 150 :=
  (C8_step_ceiling ai0 150 dbT inpAddCollege).2 (by rfl)

/-- Claim C9 counterexample: a college payload whose `email` value is
the integer 5 passes the phone check, then `re.match` on the
non-string email raises a `TypeError` that `except (ValueError,
KeyError)` does not catch — the operation raises instead of returning
`(None, None)`. -/
theorem C9_nonstring_email_cex :
    adminAddCollege dbT data9 = .error .typeError := by rfl

/-- Claim C9 as amended: for payloads whose `email` value, when
present, is a string, each of `Admin.add_college`,
`College.add_teacher` and `Teacher.add_student` returns a non-`None`
document exactly when the required keys are present and the `User`
validation passes (phone 10-15 digits, email matching the pattern, age
an integer strictly between 0 and 120), and returns `(None, None)`
rather than raising otherwise; a non-string email instead raises an
uncaught `TypeError`. -/
theorem C9_validation_gate (db : DB) (data : PyDict) (hE : emailFieldIsStr data = true) :
    (addCollegeOk db data = collegeDataValid data ∧ exOk (adminAddCollege db data) = true) ∧
      (∀ cid : String, addTeacherOk db data cid = teacherDataValid data ∧
        exOk (collegeAddTeacher db data cid) = true) ∧
      (∀ tid cid cls : String, addStudentOk db data tid cid cls = studentDataValid data ∧
        exOk (teacherAddStudent db data tid cid cls) = true) :=
  ⟨addCollege_spec db data hE,
   fun cid => addTeacher_spec db data cid hE,
   fun tid cid cls => addStudent_spec db data tid cid cls hE⟩

/-- Claim C9 witness: the validation gate at a concrete valid payload. -/
theorem C9_validation_gate_witness :
    emailFieldIsStr data9g = true ∧ collegeDataValid data9g = true ∧
      (addCollegeOk dbT data9g = collegeDataValid data9g ∧
        exOk (adminAddCollege dbT data9g) = true) :=
  ⟨by rfl, by rfl, (C9_validation_gate dbT data9g (by rfl)).1⟩

/-- Claim C10 counterexample: a login payload missing the `password`
key does not leave the session at the unauthenticated halt point — the
graph re-enters `login` until the recursion ceiling and the invocation
aborts. -/
theorem C10_missing_credentials_cex :
    (invoke ai0 100 dbT inpNoPw).isHalted = false ∧
      (invoke ai0 100 dbT inpNoPw).isAborted = true := ⟨by rfl, by rfl⟩

/-- Claim C10 as amended: `login_node` itself does not raise on a
payload missing `email` or `password`: the `KeyError` is caught and
the node returns the unauthenticated role with the exact message
"Login requires 'email' and 'password'."; the graph, however, then
routes `unauthenticated` back to `login` and re-executes it until the
recursion ceiling, so the invocation aborts with that message in place
rather than resting at a halt point. -/
theorem C10_missing_credentials :
    (∀ (db : DB) (s : AppState),
        (dictGet s.user_data "email" = Option.none ∨
          dictGet s.user_data "password" = Option.none) →
        loginNode db s = .ok ({ s with
          current_role := "unauthenticated",
          message := "Login requires 'email' and 'password'." })) ∧
      (∀ (ai : AiOracle) (limit : Nat) (db : DB) (inp : Input), 1 ≤ limit →
        (dictGet (initState inp).user_data "email" = Option.none ∨
          dictGet (initState inp).user_data "password" = Option.none) →
        invoke ai limit db inp =
          .aborted db ({ initState inp with
            current_role := "unauthenticated",
            message := "Login requires 'email' and 'password'." }) limit) := by
  have hbr : ∀ (db : DB) (ud : PyDict),
      (dictGet ud "email" = Option.none ∨ dictGet ud "password" = Option.none) →
      loginAttempt db ud = .badRequest := by
    intro db ud h
    rcases h with h | h
    · simp [loginAttempt, h]
    · cases he : dictGet ud "email" with
      | none => simp [loginAttempt, he]
      | some ev => simp [loginAttempt, he, h]
  constructor
  · intro db s h
    have hA := hbr db s.user_data h
    simp [loginNode, hA]
  · intro ai limit db inp hlim h
    have hm : loginFailMsg (loginAttempt db (initState inp).user_data) =
        some "Login requires 'email' and 'password'." := by
      rw [hbr db _ h]
      rfl
    have := login_fail_loop ai db limit 0 (initState inp)
      "Login requires 'email' and 'password'." hm hlim
    unfold invoke
    simpa using this

/-- Claim C10 witness: the node-level message and the graph-level abort
at the concrete credential-less input. -/
theorem C10_missing_credentials_witness :
    loginNode dbT (initState inpNoPw) =
      .ok ({ initState inpNoPw with
        current_role := "unauthenticated",
        message := "Login requires 'email' and 'password'." }) ∧
      invoke ai0 3 dbT inpNoPw =
        .aborted dbT ({ initState inpNoPw with
          current_role := "unauthenticated",
          message := "Login requires 'email' and 'password'." }) 3 :=
  ⟨C10_missing_credentials.1 dbT (initState inpNoPw) (Or.inr (by rfl)),
   C10_missing_credentials.2 ai0 3 dbT inpNoPw (by omega) (Or.inr (by rfl))⟩
